import Mathlib

/-!
Shallow embedding of `custom_components/evergy/pyEvergy.py`.

Datetimes are modelled as integers counting minutes, so that
`timedelta(minutes=15)` is `15`, `timedelta(hours=1)` is `60` and
`timedelta(days=1)` is `1440`.  JSON values read from responses are modelled
by `PyVal`; JSON objects by association lists `List (String × PyVal)`.
Python exceptions are modelled by the `PyError` type together with
`Except PyError`-valued functions; the two exception classes that the module
defines (`InvalidAuth`, `EvergyException`) are variants of `PyError`.
-/

/-- Python exceptions that the translated code can raise. -/
inductive PyError where
  | stopIteration
  | assertionError (msg : String)
  | keyError (key : String)
  | indexError
  | typeError
  | invalidAuth (msg : String)
  | evergyException (msg : String)
deriving DecidableEq, Repr

/-- Atomic JSON values appearing in the response fields that the code reads. -/
inductive PyVal where
  | pynone
  | pybool (b : Bool)
  | pyint (n : Int)
  | pystr (s : String)
deriving DecidableEq, Repr

/-- A JSON object, as Python sees a parsed response body. -/
abbrev JDict := List (String × PyVal)

/-- Python subscript `d[key]` on a dict: the value, or `KeyError`. -/
def pyGet (d : JDict) (key : String) : Except PyError PyVal :=
  match d.find? (fun kv => kv.1 == key) with
  | some kv => .ok kv.2
  | none => .error (.keyError key)

/-- Python `x is not None`. -/
def is_not_none : PyVal → Bool
  | .pynone => false
  | _ => true

/-- Translation of `get_past_date`: `days_back` days before the given
midnight datetime `dt_today` (minutes model). -/
def get_past_date (dt_today : Int) (days_back : Int := 1) : Int :=
  dt_today - 1440 * days_back

/-- Translation of `get_end_date_from_number_of_intervals` from
`pyEvergy.py`: decrement the count, then add 15 minutes, one hour or one
day per remaining interval, with the day branch as the catch-all. -/
def get_end_date_from_number_of_intervals
    (from_date : Int) (num_intervals : Int := 1) (interval : String := "d") : Int :=
  let num_intervals := num_intervals - 1
  if interval == "mi" then from_date + 15 * num_intervals
  else if interval == "h" then from_date + 60 * num_intervals
  else from_date + 1440 * num_intervals

/-- C7: for every start datetime and interval in {d, h, mi}, the calculator
returns `from + (count - 1)` interval-units; in particular one interval is
`from` itself, three hours is `from + 2` hours, three quarter-hours is
`from + 30` minutes and three days is `from + 2` days. -/
theorem get_end_date_interval_spec (from_date : Int) (interval : String)
    (hin : interval = "d" ∨ interval = "h" ∨ interval = "mi") :
    get_end_date_from_number_of_intervals from_date 1 interval = from_date
    ∧ get_end_date_from_number_of_intervals from_date 3 "h" = from_date + 2 * 60
    ∧ get_end_date_from_number_of_intervals from_date 3 "mi" = from_date + 30
    ∧ get_end_date_from_number_of_intervals from_date 3 "d" = from_date + 2 * 1440
    ∧ (∀ n : Int,
        get_end_date_from_number_of_intervals from_date n "mi" = from_date + 15 * (n - 1)
        ∧ get_end_date_from_number_of_intervals from_date n "h" = from_date + 60 * (n - 1)
        ∧ get_end_date_from_number_of_intervals from_date n "d" = from_date + 1440 * (n - 1)) := by
  refine ⟨?_, by simp [get_end_date_from_number_of_intervals], ?_, ?_, ?_⟩
  · rcases hin with rfl | rfl | rfl <;> simp [get_end_date_from_number_of_intervals]
  · simp [get_end_date_from_number_of_intervals]
  · simp [get_end_date_from_number_of_intervals]
  · intro n
    refine ⟨?_, ?_, ?_⟩ <;> simp [get_end_date_from_number_of_intervals]

/-- Witness for C7 at `from = 100`, `interval = "h"`. -/
theorem get_end_date_interval_spec_witness :
    get_end_date_from_number_of_intervals 100 1 "h" = 100
    ∧ get_end_date_from_number_of_intervals 100 3 "h" = 100 + 2 * 60 :=
  ⟨(get_end_date_interval_spec 100 "h" (Or.inr (Or.inl rfl))).1,
   (get_end_date_interval_spec 100 "h" (Or.inr (Or.inl rfl))).2.1⟩

/-- C10: a zero interval count is accepted and yields `from` minus one full
interval-unit, and every interval string other than "mi" and "h" behaves
exactly like the day interval. -/
theorem get_end_date_zero_intervals (from_date : Int) :
    get_end_date_from_number_of_intervals from_date 0 "mi" = from_date - 15
    ∧ get_end_date_from_number_of_intervals from_date 0 "h" = from_date - 60
    ∧ (∀ interval : String, interval ≠ "mi" → interval ≠ "h" →
        get_end_date_from_number_of_intervals from_date 0 interval = from_date - 1440)
    ∧ (∀ (interval : String) (n : Int), interval ≠ "mi" → interval ≠ "h" →
        get_end_date_from_number_of_intervals from_date n interval =
          get_end_date_from_number_of_intervals from_date n "d") := by
  refine ⟨by simp [get_end_date_from_number_of_intervals]; ring,
          by simp [get_end_date_from_number_of_intervals]; ring, ?_, ?_⟩
  · intro interval h1 h2
    simp [get_end_date_from_number_of_intervals, h1, h2]; ring
  · intro interval n h1 h2
    simp [get_end_date_from_number_of_intervals, h1, h2]

/-- Witness for C10 at `from = 0`, `interval = "weeks"`, `n = 5`. -/
theorem get_end_date_zero_intervals_witness :
    get_end_date_from_number_of_intervals 0 0 "weeks" = 0 - 1440
    ∧ get_end_date_from_number_of_intervals 0 5 "weeks" =
        get_end_date_from_number_of_intervals 0 5 "d" :=
  ⟨(get_end_date_zero_intervals 0).2.2.1 "weeks" (by decide) (by decide),
   (get_end_date_zero_intervals 0).2.2.2 "weeks" 5 (by decide) (by decide)⟩

/-- Python `str(token)` on an attribute value that is a string or `None`. -/
def pyStr : Option String → String
  | none => "None"
  | some s => s

/-- Translation of `next(filter(lambda attr: attr[0] == name, attrs))`:
the first attribute with the given name, or `StopIteration` when the
filter is exhausted. -/
def nextAttr (attrs : List (String × Option String)) (name : String) :
    Except PyError (Option String) :=
  match attrs.find? (fun a => a.1 == name) with
  | some a => .ok a.2
  | none => .error .stopIteration

/-- Python dict assignment `d[k] = v` on an association list. -/
def dset (d : List (String × String)) (k v : String) : List (String × String) :=
  match d with
  | [] => [(k, v)]
  | kv :: rest => if kv.1 == k then (k, v) :: rest else kv :: dset rest k v

/-- The six `data-davinci-*` attributes that `handle_starttag` reads, paired
with the keys they are stored under in `self.data`, in source order. -/
def davinciAttrKeys : List (String × String) :=
  [("data-davinci-company-id", "company_id"),
   ("data-davinci-sk-api-key", "sk_api_key"),
   ("data-davinci-api-root", "api_root"),
   ("data-davinci-policy-id", "policy_id"),
   ("data-davinci-post-processing-api", "post_processing_api"),
   ("data-davinci-datasource-item-id", "datasource_item_id")]

/-- The body of the marker branch of `handle_starttag`: read each listed
attribute with `next(filter(...))` and store `str(token)` under the
corresponding key, stopping at the first missing attribute. -/
def readDavinciAttrs (attrs : List (String × Option String)) :
    List (String × String) → List (String × String) →
      Except PyError (List (String × String))
  | d, [] => .ok d
  | d, (attrName, key) :: rest =>
    match nextAttr attrs attrName with
    | .error e => .error e
    | .ok token => readDavinciAttrs attrs (dset d key (pyStr token)) rest

/-- Translation of `EvergyDavinciWidgetParser.handle_starttag`: on a `div`
carrying class `davinci-widget-wrapper`, read the six `data-davinci-*`
attributes into `self.data`; on any other tag, leave the data unchanged. -/
def handle_starttag (data : List (String × String)) (tag : String)
    (attrs : List (String × Option String)) :
    Except PyError (List (String × String)) :=
  if tag = "div" ∧ ("class", some "davinci-widget-wrapper") ∈ attrs then
    readDavinciAttrs attrs data davinciAttrKeys
  else .ok data

/-- Translation of `HTMLParser.feed` restricted to what the parser handles:
run `handle_starttag` over the start-tag events of the markup in order. -/
def feed (data : List (String × String)) :
    List (String × List (String × Option String)) →
      Except PyError (List (String × String))
  | [] => .ok data
  | ev :: rest =>
    match handle_starttag data ev.1 ev.2 with
    | .error e => .error e
    | .ok d => feed d rest

/-- State of `EvergyLoginHandler`: the widget data dict plus the handshake
identifiers that the steps thread along. -/
structure EvergyLoginHandler where
  auth_data : List (String × String)
  access_token : PyVal
  connectionId : PyVal
  interactionId : PyVal
  flowId : PyVal
  id : PyVal
deriving DecidableEq, Repr

/-- Translation of `EvergyLoginHandler.get_auth_data`: parse the login page
with the widget parser and assert that some widget data was found. -/
def EvergyLoginHandler.get_auth_data (self : EvergyLoginHandler)
    (events : List (String × List (String × Option String))) :
    Except PyError EvergyLoginHandler :=
  match feed [] events with
  | .error e => .error e
  | .ok d =>
    if d.isEmpty then .error (.assertionError "Failed to get davinci widget data")
    else .ok { self with auth_data := d }

/-- A start-tag event is the widget marker when it is a `div` whose `class`
attribute is exactly `davinci-widget-wrapper`. -/
def isMarkerEvent (ev : String × List (String × Option String)) : Prop :=
  ev.1 = "div" ∧ ("class", some "davinci-widget-wrapper") ∈ ev.2

instance (ev : String × List (String × Option String)) :
    Decidable (isMarkerEvent ev) := by
  unfold isMarkerEvent; infer_instance

lemma nextAttr_error {attrs : List (String × Option String)} {name : String}
    {e : PyError} (h : nextAttr attrs name = .error e) : e = .stopIteration := by
  unfold nextAttr at h
  cases hf : attrs.find? (fun a => a.1 == name) <;> simp [hf] at h
  exact h.symm

lemma nextAttr_none {attrs : List (String × Option String)} {name : String}
    (h : attrs.find? (fun a => a.1 == name) = none) :
    nextAttr attrs name = .error .stopIteration := by
  simp [nextAttr, h]

lemma readDavinciAttrs_missing {attrs : List (String × Option String)}
    (pairs : List (String × String)) (d : List (String × String))
    (h : ∃ p ∈ pairs, attrs.find? (fun a => a.1 == p.1) = none) :
    readDavinciAttrs attrs d pairs = .error .stopIteration := by
  induction pairs generalizing d with
  | nil => rcases h with ⟨p, hp, _⟩; cases hp
  | cons hd tl ih =>
    rcases h with ⟨p, hp, hnone⟩
    rcases List.mem_cons.mp hp with rfl | htl
    · simp [readDavinciAttrs, nextAttr_none hnone]
    · cases hn : nextAttr attrs hd.1 with
      | error e =>
        have := nextAttr_error hn
        subst this
        simp [readDavinciAttrs, hn]
      | ok token =>
        simp [readDavinciAttrs, hn]
        exact ih _ ⟨p, htl, hnone⟩

lemma handle_starttag_not_marker {data : List (String × String)}
    {tag : String} {attrs : List (String × Option String)}
    (h : ¬ isMarkerEvent (tag, attrs)) :
    handle_starttag data tag attrs = .ok data := by
  simp [handle_starttag, isMarkerEvent] at h ⊢
  intro h1 h2
  exact absurd h2 (h h1)

lemma feed_no_marker {events : List (String × List (String × Option String))}
    (h : ∀ ev ∈ events, ¬ isMarkerEvent ev) (d : List (String × String)) :
    feed d events = .ok d := by
  induction events generalizing d with
  | nil => rfl
  | cons ev rest ih =>
    have h1 : handle_starttag d ev.1 ev.2 = .ok d :=
      handle_starttag_not_marker (h ev (List.mem_cons_self ev rest))
    simp [feed, h1]
    exact ih (fun e he => h e (List.mem_cons_of_mem ev he)) d

/-- C5 (amended): when no start tag of the login page is the marker `div`,
`get_auth_data` fails with the `MissingWidgetData`-style assertion
(`AssertionError "Failed to get davinci widget data"`); when the marker
`div` is present but one of the six `data-davinci-*` attributes is missing,
the extractor fails with `StopIteration` instead, not with that error. -/
theorem get_auth_data_missing_widget_data (self : EvergyLoginHandler)
    (events : List (String × List (String × Option String)))
    (attrs : List (String × Option String)) :
    ((∀ ev ∈ events, ¬ isMarkerEvent ev) →
      EvergyLoginHandler.get_auth_data self events =
        .error (.assertionError "Failed to get davinci widget data"))
    ∧ ((("class", some "davinci-widget-wrapper") ∈ attrs) →
      (∃ p ∈ davinciAttrKeys, attrs.find? (fun a => a.1 == p.1) = none) →
      EvergyLoginHandler.get_auth_data self [("div", attrs)] =
        .error .stopIteration) := by
  constructor
  · intro h
    simp [EvergyLoginHandler.get_auth_data, feed_no_marker h]
  · intro hmark hmiss
    have hdiv : handle_starttag [] "div" attrs = .error .stopIteration := by
      simp only [handle_starttag, true_and]
      rw [if_pos hmark]
      exact readDavinciAttrs_missing davinciAttrKeys [] hmiss
    simp [EvergyLoginHandler.get_auth_data, feed, hdiv]

/-- Witness for C5 (amended): markup with no marker at all, and markup whose
marker misses `data-davinci-sk-api-key`. -/
theorem get_auth_data_missing_widget_data_witness :
    EvergyLoginHandler.get_auth_data
        ⟨[], .pynone, .pynone, .pynone, .pynone, .pynone⟩
        [("p", []), ("div", [("class", some "content")])] =
      .error (.assertionError "Failed to get davinci widget data")
    ∧ EvergyLoginHandler.get_auth_data
        ⟨[], .pynone, .pynone, .pynone, .pynone, .pynone⟩
        [("div", [("class", some "davinci-widget-wrapper"),
                  ("data-davinci-company-id", some "C1")])] =
      .error .stopIteration :=
  ⟨(get_auth_data_missing_widget_data _ _ []).1 (by decide),
   (get_auth_data_missing_widget_data
      ⟨[], .pynone, .pynone, .pynone, .pynone, .pynone⟩
      [("div", [("class", some "davinci-widget-wrapper"),
                ("data-davinci-company-id", some "C1")])]
      [("class", some "davinci-widget-wrapper"),
       ("data-davinci-company-id", some "C1")]).2
     (by decide)
     ⟨("data-davinci-sk-api-key", "sk_api_key"), by decide, by decide⟩⟩

/-- Counterexample for C5: a syntactically valid marker element missing five
of the six attributes makes the extractor raise `StopIteration`, which is
not the `MissingWidgetData` assertion error. -/
theorem get_auth_data_missing_attr_counterexample :
    EvergyLoginHandler.get_auth_data
        ⟨[], .pynone, .pynone, .pynone, .pynone, .pynone⟩
        [("div", [("class", some "davinci-widget-wrapper"),
                  ("data-davinci-company-id", some "C1")])] =
      .error .stopIteration
    ∧ (PyError.stopIteration ≠
        PyError.assertionError "Failed to get davinci widget data") := by
  constructor
  · rfl
  · decide

/-- Translation of `EvergyLoginHandler.get_sdktoken`: read `access_token`
from the sdktoken response. -/
def EvergyLoginHandler.get_sdktoken (self : EvergyLoginHandler)
    (resp : JDict) : Except PyError EvergyLoginHandler := do
  let token ← pyGet resp "access_token"
  pure { self with access_token := token }

/-- Translation of `EvergyLoginHandler.start_flow`: read `id`,
`connectionId`, `interactionId` and `flowId` from the flow-start response,
in source order. -/
def EvergyLoginHandler.start_flow (self : EvergyLoginHandler)
    (resp : JDict) : Except PyError EvergyLoginHandler := do
  let idv ← pyGet resp "id"
  let conn ← pyGet resp "connectionId"
  let inter ← pyGet resp "interactionId"
  let flow ← pyGet resp "flowId"
  pure { self with id := idv, connectionId := conn, interactionId := inter,
                   flowId := flow }

/-- Translation of `EvergyLoginHandler.get_login_form`: adopt the new step
id from the response. -/
def EvergyLoginHandler.get_login_form (self : EvergyLoginHandler)
    (resp : JDict) : Except PyError EvergyLoginHandler := do
  let idv ← pyGet resp "id"
  pure { self with id := idv }

/-- Translation of `EvergyLoginHandler.submit_login_form`: a response
`flowId` different from the stored one means the username does not exist; a
response `id` equal to the stored one means the password was rejected;
otherwise the new step id is adopted. -/
def EvergyLoginHandler.submit_login_form (self : EvergyLoginHandler)
    (username password : String) (resp : JDict) :
    Except PyError EvergyLoginHandler := do
  let flow ← pyGet resp "flowId"
  if flow ≠ self.flowId then
    Except.error (.invalidAuth "No such username. Login failed.")
  else do
    let idv ← pyGet resp "id"
    if idv = self.id then
      Except.error (.invalidAuth "Wrong password. Login failed.")
    else
      pure { self with id := idv }

/-- Translation of `EvergyLoginHandler.get_new_connection_id`: adopt the new
step id and connection id. -/
def EvergyLoginHandler.get_new_connection_id (self : EvergyLoginHandler)
    (resp : JDict) : Except PyError EvergyLoginHandler := do
  let idv ← pyGet resp "id"
  let conn ← pyGet resp "connectionId"
  pure { self with id := idv, connectionId := conn }

/-- Translation of `EvergyLoginHandler.get_new_connection_cookie`: adopt the
new step id. -/
def EvergyLoginHandler.get_new_connection_cookie (self : EvergyLoginHandler)
    (resp : JDict) : Except PyError EvergyLoginHandler := do
  let idv ← pyGet resp "id"
  pure { self with id := idv }

/-- Translation of `EvergyLoginHandler.get_new_access_token`: adopt the new
step id and the fresh access token. -/
def EvergyLoginHandler.get_new_access_token (self : EvergyLoginHandler)
    (resp : JDict) : Except PyError EvergyLoginHandler := do
  let idv ← pyGet resp "id"
  let token ← pyGet resp "access_token"
  pure { self with id := idv, access_token := token }

/-- Translation of `EvergyLoginHandler.postprocessing_api`: the response
body is parsed but nothing is read from it and no state is updated. -/
def EvergyLoginHandler.postprocessing_api (self : EvergyLoginHandler) :
    Except PyError EvergyLoginHandler :=
  .ok self

/-- The responses the remote service returns to one handshake run, one per
step, plus the start-tag events of the fetched login page. -/
structure HandshakeEnv where
  loginPageEvents : List (String × List (String × Option String))
  sdkResp : JDict
  startResp : JDict
  formResp : JDict
  submitResp : JDict
  connResp : JDict
  cookieResp : JDict
  tokenResp : JDict
deriving DecidableEq, Repr

/-- The first four steps of `EvergyLoginHandler.login`, up to and including
`get_login_form` (the state that `submit_login_form` then receives). -/
def stepsThroughForm (self : EvergyLoginHandler) (env : HandshakeEnv) :
    Except PyError EvergyLoginHandler := do
  let self ← self.get_auth_data env.loginPageEvents
  let self ← self.get_sdktoken env.sdkResp
  let self ← self.start_flow env.startResp
  self.get_login_form env.formResp

/-- Translation of `EvergyLoginHandler.login`: the nine handshake steps run
strictly in order, any failure propagating unchanged. -/
def EvergyLoginHandler.login (self : EvergyLoginHandler)
    (username password : String) (env : HandshakeEnv) :
    Except PyError EvergyLoginHandler := do
  let self ← stepsThroughForm self env
  let self ← self.submit_login_form username password env.submitResp
  let self ← self.get_new_connection_id env.connResp
  let self ← self.get_new_connection_cookie env.cookieResp
  let self ← self.get_new_access_token env.tokenResp
  self.postprocessing_api

lemma except_ok_bind {α β : Type} (a : α) (f : α → Except PyError β) :
    (Except.ok a >>= f) = f a := rfl

lemma except_error_bind {α β : Type} (e : PyError) (f : α → Except PyError β) :
    ((Except.error e : Except PyError α) >>= f) = Except.error e := rfl

lemma except_bind_ok {α β : Type} {x : Except PyError α}
    {f : α → Except PyError β} {b : β} (h : (x >>= f) = .ok b) :
    ∃ a, x = .ok a ∧ f a = .ok b := by
  cases x with
  | error e => rw [except_error_bind] at h; cases h
  | ok a => exact ⟨a, rfl, by rwa [except_ok_bind] at h⟩

/-- A freshly constructed handler, before any step has run. -/
def handler0 : EvergyLoginHandler :=
  ⟨[], .pynone, .pynone, .pynone, .pynone, .pynone⟩

/-- Marker element of a well-formed login page, carrying all six
attributes. -/
def okAttrs : List (String × Option String) :=
  [("class", some "davinci-widget-wrapper"),
   ("data-davinci-company-id", some "C1"),
   ("data-davinci-sk-api-key", some "K"),
   ("data-davinci-api-root", some "https://auth.x/a"),
   ("data-davinci-policy-id", some "P"),
   ("data-davinci-post-processing-api", some "/pp"),
   ("data-davinci-datasource-item-id", some "D")]

/-- The widget data extracted from `okAttrs`. -/
def okAuthData : List (String × String) :=
  [("company_id", "C1"), ("sk_api_key", "K"), ("api_root", "https://auth.x/a"),
   ("policy_id", "P"), ("post_processing_api", "/pp"),
   ("datasource_item_id", "D")]

/-- A consistent set of step responses for one successful handshake:
`flowId` stays `F1` and the step id advances at every step. -/
def okHandshakeEnv : HandshakeEnv where
  loginPageEvents := [("div", okAttrs)]
  sdkResp := [("access_token", .pystr "T0")]
  startResp := [("id", .pystr "S0"), ("connectionId", .pystr "CN0"),
                ("interactionId", .pystr "I0"), ("flowId", .pystr "F1")]
  formResp := [("id", .pystr "S1")]
  submitResp := [("flowId", .pystr "F1"), ("id", .pystr "S2")]
  connResp := [("id", .pystr "S3"), ("connectionId", .pystr "CN1")]
  cookieResp := [("id", .pystr "S4")]
  tokenResp := [("id", .pystr "S5"), ("access_token", .pystr "T1")]

/-- The handler state reached after `get_login_form` under
`okHandshakeEnv`: step id `S1`, flow id `F1`. -/
def formState : EvergyLoginHandler :=
  ⟨okAuthData, .pystr "T0", .pystr "CN0", .pystr "I0", .pystr "F1", .pystr "S1"⟩

/-- The handler state after a full successful handshake under
`okHandshakeEnv`. -/
def loginFinalState : EvergyLoginHandler :=
  ⟨okAuthData, .pystr "T1", .pystr "CN1", .pystr "I0", .pystr "F1", .pystr "S5"⟩

/-- An environment identical to `okHandshakeEnv` except that the
credential-submission response reports a different `flowId`. -/
def badFlowEnv : HandshakeEnv :=
  { okHandshakeEnv with submitResp := [("flowId", .pystr "F2"), ("id", .pystr "S2")] }

/-- C1: a credential-submission response whose `flowId` differs from the
stored one makes `submit_login_form` raise the no-such-username
`InvalidAuth`, whatever the other response fields are, and the composed
handshake stops there with that same error. -/
theorem submit_login_form_flow_mismatch (st : EvergyLoginHandler)
    (username password : String) (resp : JDict) (fv : PyVal)
    (hfv : pyGet resp "flowId" = .ok fv) (hne : fv ≠ st.flowId) :
    st.submit_login_form username password resp =
      .error (.invalidAuth "No such username. Login failed.")
    ∧ ∀ (env : HandshakeEnv) (st0 : EvergyLoginHandler),
        env.submitResp = resp → stepsThroughForm st0 env = .ok st →
        EvergyLoginHandler.login st0 username password env =
          .error (.invalidAuth "No such username. Login failed.") := by
  have hsub : st.submit_login_form username password resp =
      .error (.invalidAuth "No such username. Login failed.") := by
    simp [EvergyLoginHandler.submit_login_form, hfv, except_ok_bind, hne]
  refine ⟨hsub, ?_⟩
  intro env st0 hresp hsteps
  simp [EvergyLoginHandler.login, hsteps, except_ok_bind, hresp, hsub,
        except_error_bind]

/-- Witness for C1: a full handshake run against responses whose credential
step reports flow id `F2` instead of `F1` aborts with the no-such-username
error. -/
theorem submit_login_form_flow_mismatch_witness :
    EvergyLoginHandler.login handler0 "user" "pw" badFlowEnv =
      .error (.invalidAuth "No such username. Login failed.") :=
  (submit_login_form_flow_mismatch formState "user" "pw"
      [("flowId", .pystr "F2"), ("id", .pystr "S2")] (.pystr "F2") rfl
      (by decide)).2 badFlowEnv handler0 rfl rfl

/-- Counterexample for C2: a response whose `id` equals the submitted step
id but whose `flowId` also differs from the flow is rejected with the
no-such-username error, not the wrong-password one, because the flow check
runs first. -/
theorem submit_login_form_wrong_password_counterexample :
    EvergyLoginHandler.submit_login_form formState "user" "pw"
        [("flowId", .pystr "F2"), ("id", .pystr "S1")] =
      .error (.invalidAuth "No such username. Login failed.")
    ∧ "No such username. Login failed." ≠ "Wrong password. Login failed." :=
  ⟨rfl, by decide⟩

/-- C2 (amended): when the response `flowId` matches the stored flow id, a
response `id` equal to the submitted step id raises the wrong-password
`InvalidAuth`, and otherwise the new step id is adopted; a mismatching
`flowId` takes priority and raises the no-such-username error instead. -/
theorem submit_login_form_wrong_password (st : EvergyLoginHandler)
    (username password : String) (resp : JDict) (fv idv : PyVal)
    (hfv : pyGet resp "flowId" = .ok fv) (heq : fv = st.flowId)
    (hid : pyGet resp "id" = .ok idv) :
    (idv = st.id →
      st.submit_login_form username password resp =
        .error (.invalidAuth "Wrong password. Login failed."))
    ∧ (idv ≠ st.id →
      st.submit_login_form username password resp = .ok { st with id := idv }) := by
  constructor <;> intro h <;>
    simp [EvergyLoginHandler.submit_login_form, hfv, heq, hid, h, except_ok_bind,
          pure, Except.pure]

/-- Witness for C2 (amended): with flow id `F1` kept, an unchanged step id
`S1` is rejected as a wrong password, and a new step id `S2` is adopted. -/
theorem submit_login_form_wrong_password_witness :
    EvergyLoginHandler.submit_login_form formState "user" "pw"
        [("flowId", .pystr "F1"), ("id", .pystr "S1")] =
      .error (.invalidAuth "Wrong password. Login failed.")
    ∧ EvergyLoginHandler.submit_login_form formState "user" "pw"
        [("flowId", .pystr "F1"), ("id", .pystr "S2")] =
      .ok { formState with id := .pystr "S2" } :=
  ⟨(submit_login_form_wrong_password formState "user" "pw"
      [("flowId", .pystr "F1"), ("id", .pystr "S1")]
      (.pystr "F1") (.pystr "S1") rfl rfl rfl).1 rfl,
   (submit_login_form_wrong_password formState "user" "pw"
      [("flowId", .pystr "F1"), ("id", .pystr "S2")]
      (.pystr "F1") (.pystr "S2") rfl rfl rfl).2 (by decide)⟩

lemma except_pure_ok {α : Type} {a b : α}
    (h : (pure a : Except PyError α) = .ok b) : a = b := by
  injection h

lemma get_login_form_flowId {st st' : EvergyLoginHandler} {resp : JDict}
    (h : st.get_login_form resp = .ok st') : st'.flowId = st.flowId := by
  unfold EvergyLoginHandler.get_login_form at h
  rcases except_bind_ok h with ⟨idv, -, h2⟩
  rw [← except_pure_ok h2]

lemma submit_login_form_flowId {st st' : EvergyLoginHandler}
    {u p : String} {resp : JDict}
    (h : st.submit_login_form u p resp = .ok st') : st'.flowId = st.flowId := by
  unfold EvergyLoginHandler.submit_login_form at h
  rcases except_bind_ok h with ⟨fv, -, h2⟩
  split at h2
  · cases h2
  · rcases except_bind_ok h2 with ⟨idv, -, h3⟩
    split at h3
    · cases h3
    · rw [← except_pure_ok h3]

lemma get_new_connection_id_flowId {st st' : EvergyLoginHandler} {resp : JDict}
    (h : st.get_new_connection_id resp = .ok st') : st'.flowId = st.flowId := by
  unfold EvergyLoginHandler.get_new_connection_id at h
  rcases except_bind_ok h with ⟨idv, -, h2⟩
  rcases except_bind_ok h2 with ⟨conn, -, h3⟩
  rw [← except_pure_ok h3]

lemma get_new_connection_cookie_flowId {st st' : EvergyLoginHandler} {resp : JDict}
    (h : st.get_new_connection_cookie resp = .ok st') : st'.flowId = st.flowId := by
  unfold EvergyLoginHandler.get_new_connection_cookie at h
  rcases except_bind_ok h with ⟨idv, -, h2⟩
  rw [← except_pure_ok h2]

lemma get_new_access_token_flowId {st st' : EvergyLoginHandler} {resp : JDict}
    (h : st.get_new_access_token resp = .ok st') : st'.flowId = st.flowId := by
  unfold EvergyLoginHandler.get_new_access_token at h
  rcases except_bind_ok h with ⟨idv, -, h2⟩
  rcases except_bind_ok h2 with ⟨token, -, h3⟩
  rw [← except_pure_ok h3]

lemma postprocessing_api_flowId {st st' : EvergyLoginHandler}
    (h : st.postprocessing_api = .ok st') : st'.flowId = st.flowId := by
  unfold EvergyLoginHandler.postprocessing_api at h
  injection h with h
  rw [← h]

lemma start_flow_flowId {st st' : EvergyLoginHandler} {resp : JDict}
    (h : st.start_flow resp = .ok st') : pyGet resp "flowId" = .ok st'.flowId := by
  unfold EvergyLoginHandler.start_flow at h
  rcases except_bind_ok h with ⟨idv, -, h2⟩
  rcases except_bind_ok h2 with ⟨conn, -, h3⟩
  rcases except_bind_ok h3 with ⟨inter, -, h4⟩
  rcases except_bind_ok h4 with ⟨flow, h5, h6⟩
  rw [← except_pure_ok h6]
  exact h5

lemma stepsThroughForm_flowId {st0 st1 : EvergyLoginHandler} {env : HandshakeEnv}
    (h : stepsThroughForm st0 env = .ok st1) :
    pyGet env.startResp "flowId" = .ok st1.flowId := by
  unfold stepsThroughForm at h
  rcases except_bind_ok h with ⟨a1, -, h2⟩
  rcases except_bind_ok h2 with ⟨a2, -, h3⟩
  rcases except_bind_ok h3 with ⟨a3, h4, h5⟩
  rw [get_login_form_flowId h5]
  exact start_flow_flowId h4

/-- C6: every step after `start_flow` leaves the stored `flowId` unchanged,
and a successful composed handshake ends with exactly the `flowId` that the
flow-start response carried. -/
theorem flowId_assigned_once_by_start_flow (st : EvergyLoginHandler) :
    (∀ resp st', st.get_login_form resp = .ok st' → st'.flowId = st.flowId)
    ∧ (∀ (u p : String) resp st',
        st.submit_login_form u p resp = .ok st' → st'.flowId = st.flowId)
    ∧ (∀ resp st', st.get_new_connection_id resp = .ok st' → st'.flowId = st.flowId)
    ∧ (∀ resp st', st.get_new_connection_cookie resp = .ok st' → st'.flowId = st.flowId)
    ∧ (∀ resp st', st.get_new_access_token resp = .ok st' → st'.flowId = st.flowId)
    ∧ (∀ st', st.postprocessing_api = .ok st' → st'.flowId = st.flowId)
    ∧ (∀ (u p : String) (env : HandshakeEnv) (st' : EvergyLoginHandler) (fv : PyVal),
        EvergyLoginHandler.login st u p env = .ok st' →
        pyGet env.startResp "flowId" = .ok fv → st'.flowId = fv) := by
  refine ⟨fun resp st' h => get_login_form_flowId h,
          fun u p resp st' h => submit_login_form_flowId h,
          fun resp st' h => get_new_connection_id_flowId h,
          fun resp st' h => get_new_connection_cookie_flowId h,
          fun resp st' h => get_new_access_token_flowId h,
          fun st' h => postprocessing_api_flowId h, ?_⟩
  intro u p env st' fv hlog hfv
  unfold EvergyLoginHandler.login at hlog
  rcases except_bind_ok hlog with ⟨s1, h1, h2⟩
  rcases except_bind_ok h2 with ⟨s2, h3, h4⟩
  rcases except_bind_ok h4 with ⟨s3, h5, h6⟩
  rcases except_bind_ok h6 with ⟨s4, h7, h8⟩
  rcases except_bind_ok h8 with ⟨s5, h9, h10⟩
  have hs1 : pyGet env.startResp "flowId" = .ok s1.flowId := stepsThroughForm_flowId h1
  rw [hfv] at hs1
  injection hs1 with hs1
  rw [postprocessing_api_flowId h10, get_new_access_token_flowId h9,
      get_new_connection_cookie_flowId h7, get_new_connection_id_flowId h5,
      submit_login_form_flowId h3, ← hs1]

/-- Witness for C6: the full successful handshake under `okHandshakeEnv`
ends with flow id `F1`, the one in the flow-start response. -/
theorem flowId_assigned_once_by_start_flow_witness :
    EvergyLoginHandler.login handler0 "user" "pw" okHandshakeEnv =
      .ok loginFinalState
    ∧ loginFinalState.flowId = .pystr "F1" :=
  ⟨rfl, (flowId_assigned_once_by_start_flow handler0).2.2.2.2.2.2
      "user" "pw" okHandshakeEnv loginFinalState (.pystr "F1") rfl rfl⟩

/-- The HTTP requests the client issues, one constructor per endpoint. -/
inductive Req where
  | loginPage
  | sdktokenReq
  | startFlowReq
  | loginFormReq
  | submitFormReq
  | newConnectionReq
  | newCookieReq
  | newTokenReq
  | postProcessReq
  | accountSelector
  | dashboardReq
  | usageReport
  | logoutPage
deriving DecidableEq, Repr

/-- A value inside the dashboard JSON object: either atomic, or an array of
objects (the shape of `addresses`). -/
inductive DVal where
  | prim (v : PyVal)
  | arr (rows : List JDict)
deriving DecidableEq, Repr

/-- The dashboard JSON object. -/
abbrev DashDict := List (String × DVal)

/-- Python subscript on the dashboard object. -/
def dget (d : DashDict) (key : String) : Except PyError DVal :=
  match d.find? (fun kv => kv.1 == key) with
  | some kv => .ok kv.2
  | none => .error (.keyError key)

/-- Python subscript `[0]` on a dashboard value, as used on `addresses`. -/
def dindex0 : DVal → Except PyError JDict
  | .prim _ => .error .typeError
  | .arr [] => .error .indexError
  | .arr (row :: _) => .ok row

/-- State of the `Evergy` client: the login flag, the credentials and the
`AccountContext` fields, all initially unset (`None`). -/
structure Evergy where
  logged_in : Bool
  username : String
  password : String
  usage_data : PyVal
  dashboard_data : Option DashDict
  account_number : PyVal
  premise_id : PyVal
deriving DecidableEq, Repr

/-- The handshake responses plus the post-authentication data responses:
account/premise selector (a JSON array or null), account dashboard, and
usage report (a JSON object or null). -/
structure LoginEnv extends HandshakeEnv where
  accountResp : Option (List JDict)
  dashResp : DashDict
  usageResp : Option JDict
deriving DecidableEq, Repr

/-- The nine requests of one full handshake, in order. -/
def handshakeTrace : List Req :=
  [.loginPage, .sdktokenReq, .startFlowReq, .loginFormReq, .submitFormReq,
   .newConnectionReq, .newCookieReq, .newTokenReq, .postProcessReq]

/-- Translation of `Evergy.login`: run the nine handshake steps in order,
then fetch the account/premise selector, assert the response is truthy,
read the first account number, fetch the dashboard and read the first
address's premise id; `logged_in` becomes true only when both identifiers
are not `None`, and the flag is returned.  The first component lists the
requests issued, in order. -/
def Evergy.login (self : Evergy) (handler : EvergyLoginHandler)
    (env : LoginEnv) : List Req × Except PyError (Evergy × Bool) :=
  match handler.get_auth_data env.loginPageEvents with
  | .error e => ([.loginPage], .error e)
  | .ok h =>
  match h.get_sdktoken env.sdkResp with
  | .error e => ([.loginPage, .sdktokenReq], .error e)
  | .ok h =>
  match h.start_flow env.startResp with
  | .error e => ([.loginPage, .sdktokenReq, .startFlowReq], .error e)
  | .ok h =>
  match h.get_login_form env.formResp with
  | .error e =>
    ([.loginPage, .sdktokenReq, .startFlowReq, .loginFormReq], .error e)
  | .ok h =>
  match h.submit_login_form self.username self.password env.submitResp with
  | .error e =>
    ([.loginPage, .sdktokenReq, .startFlowReq, .loginFormReq, .submitFormReq],
     .error e)
  | .ok h =>
  match h.get_new_connection_id env.connResp with
  | .error e =>
    ([.loginPage, .sdktokenReq, .startFlowReq, .loginFormReq, .submitFormReq,
      .newConnectionReq], .error e)
  | .ok h =>
  match h.get_new_connection_cookie env.cookieResp with
  | .error e =>
    ([.loginPage, .sdktokenReq, .startFlowReq, .loginFormReq, .submitFormReq,
      .newConnectionReq, .newCookieReq], .error e)
  | .ok h =>
  match h.get_new_access_token env.tokenResp with
  | .error e =>
    ([.loginPage, .sdktokenReq, .startFlowReq, .loginFormReq, .submitFormReq,
      .newConnectionReq, .newCookieReq, .newTokenReq], .error e)
  | .ok h =>
  match h.postprocessing_api with
  | .error e => (handshakeTrace, .error e)
  | .ok _ =>
  match env.accountResp with
  | none =>
    (handshakeTrace ++ [.accountSelector],
     .error (.assertionError "Failed to get Evergy account data"))
  | some [] =>
    (handshakeTrace ++ [.accountSelector],
     .error (.assertionError "Failed to get Evergy account data"))
  | some (entry :: rest) =>
    if (entry :: rest).length = 0 then
      (handshakeTrace ++ [.accountSelector],
       .ok ({ self with logged_in := false }, false))
    else
      match pyGet entry "accountNumber" with
      | .error e => (handshakeTrace ++ [.accountSelector], .error e)
      | .ok acc =>
        let self := { self with account_number := acc }
        let self := { self with dashboard_data := some env.dashResp }
        match dget env.dashResp "addresses" with
        | .error e =>
          (handshakeTrace ++ [.accountSelector, .dashboardReq], .error e)
        | .ok addrs =>
        match dindex0 addrs with
        | .error e =>
          (handshakeTrace ++ [.accountSelector, .dashboardReq], .error e)
        | .ok row =>
        match pyGet row "premiseId" with
        | .error e =>
          (handshakeTrace ++ [.accountSelector, .dashboardReq], .error e)
        | .ok pr =>
          let self := { self with premise_id := pr }
          let flag := is_not_none self.account_number && is_not_none self.premise_id
          let self := { self with logged_in := flag }
          (handshakeTrace ++ [.accountSelector, .dashboardReq],
           .ok (self, self.logged_in))

/-- Translation of `Evergy.get_usage_range`: default both dates to today,
log in first when not logged in, validate `start <= end`, then issue the
usage request; a null response body yields `None`, otherwise the result is
the record of the response's `data` field and the cached dashboard data. -/
def Evergy.get_usage_range (self : Evergy) (handler : EvergyLoginHandler)
    (today : Int) (start : Option Int) (end_date : Option Int)
    (interval : String) (env : LoginEnv) :
    List Req × Except PyError (Evergy × Option (PyVal × Option DashDict)) :=
  let start := start.getD (get_past_date today 0)
  let end_date := end_date.getD (get_past_date today 0)
  match (if self.logged_in then ([], .ok (self, self.logged_in))
         else Evergy.login self handler env) with
  | (t, .error e) => (t, .error e)
  | (t, .ok (self, _)) =>
    if start > end_date then
      (t, .error (.evergyException "'start' date can't be after 'end' date"))
    else
      match env.usageResp with
      | none =>
        (t ++ [.usageReport], .ok ({ self with usage_data := .pynone }, none))
      | some usage_response =>
        match pyGet usage_response "data" with
        | .error e => (t ++ [.usageReport], .error e)
        | .ok d =>
          let self := { self with usage_data := d }
          (t ++ [.usageReport], .ok (self, some (d, self.dashboard_data)))

/-- Translation of `Evergy.get_usage`: compute the date range from a number
of days back and delegate. -/
def Evergy.get_usage (self : Evergy) (handler : EvergyLoginHandler)
    (today : Int) (days : Int) (interval : String) (env : LoginEnv) :
    List Req × Except PyError (Evergy × Option (PyVal × Option DashDict)) :=
  Evergy.get_usage_range self handler today
    (some (get_past_date today (days - 1))) (some (get_past_date today 0))
    interval env

/-- Translation of `Evergy.get_usage_from`: compute the end date from a
start and an interval count and delegate. -/
def Evergy.get_usage_from (self : Evergy) (handler : EvergyLoginHandler)
    (today now : Int) (start : Option Int) (size : Int) (interval : String)
    (env : LoginEnv) :
    List Req × Except PyError (Evergy × Option (PyVal × Option DashDict)) :=
  let start :=
    match start with
    | none => get_end_date_from_number_of_intervals now
    | some s => s
  let end_date := get_end_date_from_number_of_intervals start size interval
  Evergy.get_usage_range self handler today (some start) (some end_date)
    interval env

/-- Translation of `EvergyLogoutHandler.logout`: fetch the logout page and
assert the response body is non-empty. -/
def EvergyLogoutHandler.logout (text : String) : Except PyError Unit :=
  if text = "" then .error (.assertionError "Failed to logout.") else .ok ()

/-- Translation of `Evergy.logout`: run the logout handler, then clear only
the `logged_in` flag; the `AccountContext` fields are not touched. -/
def Evergy.logout (self : Evergy) (text : String) :
    List Req × Except PyError Evergy :=
  match EvergyLogoutHandler.logout text with
  | .error e => ([.logoutPage], .error e)
  | .ok _ => ([.logoutPage], .ok { self with logged_in := false })

/-- A fresh `Evergy` client, fields in construction order. -/
def evergy0 : Evergy :=
  ⟨false, "user", "pw", .pynone, none, .pynone, .pynone⟩

/-- A client that is already authenticated, account context still unset. -/
def evergyLoggedIn : Evergy := { evergy0 with logged_in := true }

/-- A fully successful environment: consistent handshake responses, one
linked account, a dashboard with one address, and a usage response whose
`data` field is present. -/
def okLoginEnv : LoginEnv :=
  { toHandshakeEnv := okHandshakeEnv
    accountResp := some [[("accountNumber", .pyint 123456789),
                          ("oPowerDomain", .pystr "kcpl.opower.com")]]
    dashResp := [("addresses", .arr [[("premiseId", .pystr "PR1")]])]
    usageResp := some [("data", .pystr "rows")] }

/-- Same as `okLoginEnv` but the account selector returns an empty list. -/
def emptyAccountEnv : LoginEnv := { okLoginEnv with accountResp := some [] }

/-- Same as `okLoginEnv` but the usage response object has no `data` key. -/
def noDataEnv : LoginEnv := { okLoginEnv with usageResp := some [] }

/-- Same as `okLoginEnv` but the usage response body is JSON null. -/
def nullUsageEnv : LoginEnv := { okLoginEnv with usageResp := none }

/-- C3: with a fully successful handshake but an empty account selector
list, `Evergy.login` raises `AssertionError "Failed to get Evergy account
data"` from the truthiness assert instead of returning false: the
dedicated `len(account_data) == 0` branch that would set `logged_in` to
false is unreachable behind that assert.  The error is raised before any
account field is assigned. -/
theorem login_empty_account_list_asserts :
    Evergy.login evergy0 handler0 emptyAccountEnv =
      (handshakeTrace ++ [Req.accountSelector],
       .error (.assertionError "Failed to get Evergy account data")) := rfl

/-- Counterexample for C4: with an unauthenticated client and `start >
end`, `get_usage_range` raises `EvergyException` only after `login()` has
already issued its requests, so the exception is not raised before any
HTTP request. -/
theorem get_usage_range_requests_before_validation :
    (Evergy.get_usage_range evergy0 handler0 0 (some 1440) (some 0) "d"
        okLoginEnv).2 =
      .error (.evergyException "'start' date can't be after 'end' date")
    ∧ (Evergy.get_usage_range evergy0 handler0 0 (some 1440) (some 0) "d"
        okLoginEnv).1 ≠ [] :=
  ⟨rfl, by decide⟩

lemma login_trace_no_usage (self : Evergy) (handler : EvergyLoginHandler)
    (env : LoginEnv) : Req.usageReport ∉ (Evergy.login self handler env).1 := by
  unfold Evergy.login
  repeat' split
  all_goals simp [handshakeTrace]

/-- C4 (amended): when the client is already authenticated, a `start > end`
call raises `EvergyException` with no request issued at all; when it is
not, `login()` runs first and issues its own requests, and the
`EvergyException` is then raised before the usage-report request — the
usage request is never part of the login trace. -/
theorem get_usage_range_start_after_end (self : Evergy)
    (handler : EvergyLoginHandler) (today s e : Int) (interval : String)
    (env : LoginEnv) (hse : s > e) :
    (self.logged_in = true →
      Evergy.get_usage_range self handler today (some s) (some e) interval env =
        ([], .error (.evergyException "'start' date can't be after 'end' date")))
    ∧ (self.logged_in = false →
      ∀ (t : List Req) (r : Evergy × Bool),
        Evergy.login self handler env = (t, Except.ok r) →
        Evergy.get_usage_range self handler today (some s) (some e) interval env =
          (t, .error (.evergyException "'start' date can't be after 'end' date")))
    ∧ Req.usageReport ∉ (Evergy.login self handler env).1 := by
  refine ⟨?_, ?_, login_trace_no_usage self handler env⟩
  · intro hl
    simp [Evergy.get_usage_range, hl, hse]
  · intro hl t r hlog
    obtain ⟨st', b⟩ := r
    simp [Evergy.get_usage_range, hl, hlog, hse]

/-- Witness for C4 (amended), both branches: an authenticated client fails
with no request at all; an unauthenticated one fails after exactly the
login requests. -/
theorem get_usage_range_start_after_end_witness :
    Evergy.get_usage_range evergyLoggedIn handler0 0 (some 1440) (some 0) "d"
        okLoginEnv =
      ([], .error (.evergyException "'start' date can't be after 'end' date"))
    ∧ Evergy.get_usage_range evergy0 handler0 0 (some 1440) (some 0) "d"
        okLoginEnv =
      (handshakeTrace ++ [Req.accountSelector, Req.dashboardReq],
       .error (.evergyException "'start' date can't be after 'end' date")) :=
  ⟨(get_usage_range_start_after_end evergyLoggedIn handler0 0 1440 0 "d"
      okLoginEnv (by decide)).1 rfl,
   (get_usage_range_start_after_end evergy0 handler0 0 1440 0 "d"
      okLoginEnv (by decide)).2.1 rfl
      (handshakeTrace ++ [Req.accountSelector, Req.dashboardReq]) _ rfl⟩

/-- Counterexample for C8: a non-null usage response without a `data` field
makes `get_usage_range` raise `KeyError`, rather than return `None`
without error. -/
theorem get_usage_range_absent_data_counterexample :
    Evergy.get_usage_range evergyLoggedIn handler0 0 (some 0) (some 0) "d"
        noDataEnv =
      ([Req.usageReport], .error (.keyError "data")) := rfl

/-- C8 (amended): `get_usage_range` returns `None` exactly when the whole
usage response body is JSON null; a non-null response yields the record of
its `data` field (whatever that value is, null included) together with the
cached dashboard data; and a non-null response with no `data` key raises
`KeyError`. -/
theorem get_usage_range_payload_handling (self : Evergy)
    (handler : EvergyLoginHandler) (today s e : Int) (interval : String)
    (env : LoginEnv) (hl : self.logged_in = true) (hse : ¬ s > e) :
    (env.usageResp = none →
      Evergy.get_usage_range self handler today (some s) (some e) interval env =
        ([Req.usageReport], .ok ({ self with usage_data := .pynone }, none)))
    ∧ (∀ (uresp : JDict) (d : PyVal),
        env.usageResp = some uresp → pyGet uresp "data" = .ok d →
        Evergy.get_usage_range self handler today (some s) (some e) interval env =
          ([Req.usageReport],
           .ok ({ self with usage_data := d }, some (d, self.dashboard_data))))
    ∧ (∀ uresp : JDict, env.usageResp = some uresp →
        uresp.find? (fun kv => kv.1 == "data") = none →
        Evergy.get_usage_range self handler today (some s) (some e) interval env =
          ([Req.usageReport], .error (.keyError "data"))) := by
  refine ⟨?_, ?_, ?_⟩
  · intro hu
    simp [Evergy.get_usage_range, hl, hse, hu]
  · intro uresp d hu hd
    simp [Evergy.get_usage_range, hl, hse, hu, hd]
  · intro uresp hu hfind
    simp [Evergy.get_usage_range, hl, hse, hu, pyGet, hfind]

/-- Witness for C8 (amended): a null body yields `None`, a body with a
`data` field yields the usage/dashboard record. -/
theorem get_usage_range_payload_handling_witness :
    Evergy.get_usage_range evergyLoggedIn handler0 0 (some 0) (some 0) "d"
        nullUsageEnv =
      ([Req.usageReport],
       .ok ({ evergyLoggedIn with usage_data := .pynone }, none))
    ∧ Evergy.get_usage_range evergyLoggedIn handler0 0 (some 0) (some 0) "d"
        okLoginEnv =
      ([Req.usageReport],
       .ok ({ evergyLoggedIn with usage_data := .pystr "rows" },
            some (.pystr "rows", none))) :=
  ⟨(get_usage_range_payload_handling evergyLoggedIn handler0 0 0 0 "d"
      nullUsageEnv rfl (by decide)).1 rfl,
   (get_usage_range_payload_handling evergyLoggedIn handler0 0 0 0 "d"
      okLoginEnv rfl (by decide)).2.1 [("data", .pystr "rows")]
      (.pystr "rows") rfl rfl⟩

/-- C9: a successful `logout()` clears only the `logged_in` flag; the
`AccountContext` fields keep their pre-logout values. -/
theorem logout_clears_only_logged_in (self : Evergy) (text : String)
    (self' : Evergy) (h : (Evergy.logout self text).2 = .ok self') :
    self'.logged_in = false
    ∧ self'.account_number = self.account_number
    ∧ self'.premise_id = self.premise_id
    ∧ self'.dashboard_data = self.dashboard_data := by
  unfold Evergy.logout at h
  cases hx : EvergyLogoutHandler.logout text with
  | error e => rw [hx] at h; cases h
  | ok u =>
    rw [hx] at h
    simp only [Except.ok.injEq] at h
    rw [← h]
    exact ⟨rfl, rfl, rfl, rfl⟩

/-- Witness for C9: logging out an authenticated client with a non-empty
logout page body. -/
theorem logout_clears_only_logged_in_witness :
    (Evergy.logout evergyLoggedIn "page").2 =
      .ok { evergyLoggedIn with logged_in := false }
    ∧ ({ evergyLoggedIn with logged_in := false } : Evergy).logged_in = false :=
  ⟨rfl, (logout_clears_only_logged_in evergyLoggedIn "page"
      { evergyLoggedIn with logged_in := false } rfl).1⟩
